import Mathlib

/-!
A shallow embedding of the extension-host editor-tabs mirror
(`ExtHostEditorTab`, `ExtHostEditorTabGroup`, `ExtHostEditorTabs`).

Modelling conventions:
* TypeScript in-place mutation becomes explicit state passing: every
  mutating method returns the updated structure.
* A method that may `throw` returns the post-throw state together with an
  `Except String` result, so that partial mutation before a throw is
  observable (the store keeps the mutated fields of the object even when
  the call raised).
* RPC proxy calls (`$closeTab`, `$closeGroup`) are modelled by returning
  the request payload in the `Except.ok` case; an `Except.error` result
  means no request was issued.
* Event emitters are modelled by returning the list of fired events.
* JavaScript object identity of the lazily created frozen `apiObject`
  wrappers is modelled by an allocation counter: `_apiObject` stores an
  optional token (`Option Nat`), and the `apiObject` accessor takes and
  returns a fresh-token supply.  The frozen wrapper's getters are modelled
  as functions reading through the current backing record.
* `URI` values are modelled as strings and `URI.revive` as the identity,
  since no claim depends on URI structure.
-/

namespace VscodeTabs

/-- The tagged input variant carried by a tab DTO
(`TabInputKind` plus the per-kind DTO fields from the protocol).
The `UnknownInput` constructor carries an arbitrary tag standing for any
input kind not among the seven recognized by `_initInput`'s switch. -/
inductive TabInputDto where
  | TextInput (uri : String)
  | TextDiffInput (original modified : String)
  | CustomEditorInput (uri viewType : String)
  | WebviewEditorInput (viewType : String)
  | NotebookInput (uri notebookType : String)
  | NotebookDiffInput (original modified notebookType : String)
  | TerminalEditorInput
  | UnknownInput (tag : Nat)
  deriving DecidableEq

/-- The public tagged union over input kinds (`AnyTabInput` in the source:
`TextTabInput | TextDiffTabInput | CustomEditorTabInput |
NotebookEditorTabInput | NotebookDiffEditorTabInput |
WebviewEditorTabInput | TerminalEditorTabInput`). -/
inductive AnyTabInput where
  | TextTabInput (uri : String)
  | TextDiffTabInput (original modified : String)
  | CustomEditorTabInput (uri viewType : String)
  | WebviewEditorTabInput (viewType : String)
  | NotebookEditorTabInput (uri notebookType : String)
  | NotebookDiffEditorTabInput (original modified notebookType : String)
  | TerminalEditorTabInput
  deriving DecidableEq

/-- `IEditorTabDto`: the authority-issued record for one tab. -/
structure IEditorTabDto where
  id : String
  label : String
  isActive : Bool
  isDirty : Bool
  isPinned : Bool
  isPreview : Bool
  input : TabInputDto
  deriving DecidableEq

/-- `IEditorTabGroupDto`: the authority-issued record for one group. -/
structure IEditorTabGroupDto where
  groupId : Int
  isActive : Bool
  viewColumn : Int
  tabs : List IEditorTabDto
  deriving DecidableEq

/-- `TabModelOperationKind` from the protocol: the three operation kinds
handled by `acceptTabOperation` (the final `else` branch of the source is
the update case). -/
inductive TabModelOperationKind where
  | TAB_OPEN
  | TAB_CLOSE
  | TAB_UPDATE
  deriving DecidableEq

/-- `TabOperation` from the protocol: `{groupId, index, tabDto, kind}`. -/
structure TabOperation where
  groupId : Int
  index : Nat
  tabDto : IEditorTabDto
  kind : TabModelOperationKind
  deriving DecidableEq

/-- `ExtHostEditorTab._initInput`: re-derive the public input variant from
the DTO's input descriptor.  One constructor per recognized kind; the
`default` branch of the switch returns `undefined`, modelled as `none`. -/
def initInput : TabInputDto → Option AnyTabInput
  | .TextInput uri => some (.TextTabInput uri)
  | .TextDiffInput original modified => some (.TextDiffTabInput original modified)
  | .CustomEditorInput uri viewType => some (.CustomEditorTabInput uri viewType)
  | .WebviewEditorInput viewType => some (.WebviewEditorTabInput viewType)
  | .NotebookInput uri notebookType => some (.NotebookEditorTabInput uri notebookType)
  | .NotebookDiffInput original modified notebookType =>
      some (.NotebookDiffEditorTabInput original modified notebookType)
  | .TerminalEditorInput => some .TerminalEditorTabInput
  | .UnknownInput _ => none

/-- `ExtHostEditorTab`: `_apiObject` is the memoized identity token of the
lazily created frozen wrapper (`none` until first access), `_dto` the
backing record, `_input` the derived kind.  The `_parentGroup` /
`_activeTabIdGetter` back-references are modelled by passing the owning
group's active-tab-id to the `isActive` getter explicitly. -/
structure ExtHostEditorTab where
  _apiObject : Option Nat
  _dto : IEditorTabDto
  _input : Option AnyTabInput
  deriving DecidableEq

namespace ExtHostEditorTab

/-- `acceptDtoUpdate`: replace the backing record and re-derive `_input`;
the memoized `_apiObject` is untouched. -/
def acceptDtoUpdate (t : ExtHostEditorTab) (dto : IEditorTabDto) : ExtHostEditorTab :=
  { t with _dto := dto, _input := initInput dto.input }

/-- The constructor `new ExtHostEditorTab(dto, parentGroup, getter)`:
no wrapper allocated yet, then `acceptDtoUpdate(dto)`. -/
def make (dto : IEditorTabDto) : ExtHostEditorTab :=
  acceptDtoUpdate { _apiObject := none, _dto := dto, _input := none } dto

/-- `get tabId()`. -/
def tabId (t : ExtHostEditorTab) : String :=
  t._dto.id

/-- The `apiObject` accessor: if no wrapper is memoized yet, allocate a
fresh identity token from the supply and memoize it; otherwise return the
memoized token.  Result: (updated tab, wrapper token, remaining supply). -/
def apiObject (t : ExtHostEditorTab) (fresh : Nat) : ExtHostEditorTab × Nat × Nat :=
  match t._apiObject with
  | some r => (t, r, fresh)
  | none => ({ t with _apiObject := some fresh }, fresh, fresh + 1)

/-- The frozen wrapper's `isActive` getter:
`that._dto.id === that._activeTabIdGetter()`. -/
def isActive (t : ExtHostEditorTab) (activeTabId : String) : Bool :=
  t._dto.id == activeTabId

/-- The frozen wrapper's `label` getter. -/
def label (t : ExtHostEditorTab) : String :=
  t._dto.label

/-- The frozen wrapper's `kind` getter. -/
def kind (t : ExtHostEditorTab) : Option AnyTabInput :=
  t._input

/-- The frozen wrapper's `isDirty` getter. -/
def isDirty (t : ExtHostEditorTab) : Bool :=
  t._dto.isDirty

/-- The frozen wrapper's `isPinned` getter. -/
def isPinned (t : ExtHostEditorTab) : Bool :=
  t._dto.isPinned

/-- The frozen wrapper's `isPreview` getter. -/
def isPreview (t : ExtHostEditorTab) : Bool :=
  t._dto.isPreview

end ExtHostEditorTab

/-- `ExtHostEditorTabGroup`: group DTO, ordered tab projections, and the
group-scoped active-tab-id (empty string when none).  The
`_activeGroupIdGetter` back-reference is modelled by passing the store's
active-group-id to the `isActive` getter explicitly. -/
structure ExtHostEditorTabGroup where
  _apiObject : Option Nat
  _dto : IEditorTabGroupDto
  _tabs : List ExtHostEditorTab
  _activeTabId : String
  deriving DecidableEq

namespace ExtHostEditorTabGroup

/-- The constructor: build a projection per tab DTO in order; the loop
assigns `_activeTabId` from each DTO flagged active (last one wins),
starting from the empty string. -/
def make (dto : IEditorTabGroupDto) : ExtHostEditorTabGroup :=
  { _apiObject := none
    _dto := dto
    _tabs := dto.tabs.map ExtHostEditorTab.make
    _activeTabId := dto.tabs.foldl (fun acc tabDto => if tabDto.isActive then tabDto.id else acc) "" }

/-- `get groupId()`. -/
def groupId (g : ExtHostEditorTabGroup) : Int :=
  g._dto.groupId

/-- `activeTabId()`: the accessor handed to every child tab. -/
def activeTabId (g : ExtHostEditorTabGroup) : String :=
  g._activeTabId

/-- The frozen wrapper's `isActive` getter:
`that._dto.groupId === that._activeGroupIdGetter()` (the getter may
return `undefined`, hence the `Option`). -/
def isActive (g : ExtHostEditorTabGroup) (activeGroupId : Option Int) : Bool :=
  some g._dto.groupId == activeGroupId

/-- `acceptGroupDtoUpdate`: replace the group metadata record. -/
def acceptGroupDtoUpdate (g : ExtHostEditorTabGroup) (dto : IEditorTabGroupDto) : ExtHostEditorTabGroup :=
  { g with _dto := dto }

/-- JavaScript `splice(index, 0, x)`: insert at `index`, appending when
`index` is at or beyond the end. -/
def spliceInsert (l : List α) (i : Nat) (x : α) : List α :=
  l.take i ++ x :: l.drop i

/-- JavaScript `splice(index, 1)`: remove and return the element at
`index` when it exists, otherwise remove nothing. -/
def spliceRemove (l : List α) (i : Nat) : Option α × List α :=
  match l[i]? with
  | none => (none, l)
  | some x => (some x, l.take i ++ l.drop (i + 1))

/-- Replace the first element satisfying `p` by `f` of it (the in-place
mutation of the object returned by `Array.prototype.find`). -/
def updateFirst (p : α → Bool) (f : α → α) : List α → List α
  | [] => []
  | x :: xs => if p x then f x :: xs else x :: updateFirst p f xs

/-- `acceptTabOperation`: apply one open/close/update operation to the
group.  Returns the group state after the call (including mutations made
before a throw) and either the projection the source returns or the
thrown error message. -/
def acceptTabOperation (g : ExtHostEditorTabGroup) (operation : TabOperation) :
    ExtHostEditorTabGroup × Except String ExtHostEditorTab :=
  if operation.kind = .TAB_OPEN then
    let tab := ExtHostEditorTab.make operation.tabDto
    let g := { g with _tabs := spliceInsert g._tabs operation.index tab }
    let g := if operation.tabDto.isActive then { g with _activeTabId := tab.tabId } else g
    (g, .ok tab)
  else if operation.kind = .TAB_CLOSE then
    match spliceRemove g._tabs operation.index with
    | (none, tabs) =>
        ({ g with _tabs := tabs },
         .error "Tab close updated received for an index which does not exist")
    | (some tab, tabs) =>
        let g := { g with _tabs := tabs }
        let g := if tab.tabId == g._activeTabId then { g with _activeTabId := "" } else g
        (g, .ok tab)
  else
    match g._tabs.find? (fun extHostTab => extHostTab.tabId == operation.tabDto.id) with
    | none => (g, .error "INVALID tab")
    | some tab =>
        let g :=
          if operation.tabDto.isActive then
            { g with _activeTabId := operation.tabDto.id }
          else if g._activeTabId == operation.tabDto.id && !operation.tabDto.isActive then
            -- Events aren't guaranteed to be in order so if we receive a dto that
            -- matches the active tab id but isn't active we mark the active tab id
            -- as empty.
            { g with _activeTabId := "" }
          else g
        let tab := tab.acceptDtoUpdate operation.tabDto
        let g := { g with
          _tabs := updateFirst (fun t => t.tabId == operation.tabDto.id)
                     (fun t => t.acceptDtoUpdate operation.tabDto) g._tabs }
        (g, .ok tab)

end ExtHostEditorTabGroup

open ExtHostEditorTabGroup (updateFirst)

/-- One emission on one of the two broadcast channels.  Payloads carry the
projections whose `apiObject` wrappers the source hands to subscribers. -/
inductive FiredEvent where
  | tabsChanged (tabs : List ExtHostEditorTab)
  | tabGroupsChanged (groups : List ExtHostEditorTabGroup)
  deriving DecidableEq

/-- `ExtHostEditorTabs`: the mirror store.  `_activeGroupId` is declared
with a definite-assignment assertion in the source and is `undefined`
until the first snapshot, hence `Option Int`. -/
structure ExtHostEditorTabs where
  _activeGroupId : Option Int
  _extHostTabGroups : List ExtHostEditorTabGroup
  deriving DecidableEq

namespace ExtHostEditorTabs

/-- `$acceptEditorTabModel`: full-snapshot reset.  The group-mirror list
is rebuilt first; then `assertIsDefined` throws when no incoming record
is flagged active (the list replacement survives the throw); otherwise
the active-group-id is updated and one groups-changed event fires. -/
def acceptEditorTabModel (s : ExtHostEditorTabs) (tabGroups : List IEditorTabGroupDto) :
    ExtHostEditorTabs × List FiredEvent × Except String Unit :=
  let s := { s with _extHostTabGroups := tabGroups.map ExtHostEditorTabGroup.make }
  match (tabGroups.find? (fun group => group.isActive == true)).map (·.groupId) with
  | none => (s, [], .error "Assertion Failed: argument is undefined or null")
  | some activeTabGroupId =>
      let s :=
        if s._activeGroupId != some activeTabGroupId then
          { s with _activeGroupId := some activeTabGroupId }
        else s
      (s, [.tabGroupsChanged s._extHostTabGroups], .ok ())

/-- `$acceptTabGroupUpdate`: locate the group mirror by id (throws when
absent), replace its metadata record, update the active-group-id when the
record is flagged active, and fire one groups-changed event with the
updated group. -/
def acceptTabGroupUpdate (s : ExtHostEditorTabs) (groupDto : IEditorTabGroupDto) :
    ExtHostEditorTabs × List FiredEvent × Except String Unit :=
  match s._extHostTabGroups.find? (fun group => group.groupId == groupDto.groupId) with
  | none => (s, [], .error "Update Group IPC call received before group creation.")
  | some group =>
      let group := group.acceptGroupDtoUpdate groupDto
      let s := { s with
        _extHostTabGroups := updateFirst (fun g => g.groupId == groupDto.groupId)
                               (fun g => g.acceptGroupDtoUpdate groupDto) s._extHostTabGroups }
      let s := if groupDto.isActive then { s with _activeGroupId := some groupDto.groupId } else s
      (s, [.tabGroupsChanged [group]], .ok ())

/-- `$acceptTabOperation`: locate the group mirror by the operation's
group id (throws when absent), delegate to the group, and — unless the
operation is a close — fire one tabs-changed event with the returned
projection. -/
def acceptTabOperation (s : ExtHostEditorTabs) (operation : TabOperation) :
    ExtHostEditorTabs × List FiredEvent × Except String Unit :=
  match s._extHostTabGroups.find? (fun group => group.groupId == operation.groupId) with
  | none => (s, [], .error "Update Tabs IPC call received before group creation.")
  | some group =>
      let (group, result) := group.acceptTabOperation operation
      let s := { s with
        _extHostTabGroups := updateFirst (fun g => g.groupId == operation.groupId)
                               (fun _ => group) s._extHostTabGroups }
      match result with
      | .error e => (s, [], .error e)
      | .ok tab =>
          if operation.kind = .TAB_CLOSE then (s, [], .ok ())
          else (s, [.tabsChanged [tab]], .ok ())

/-- `_findExtHostTabFromApi`: scan every group's tabs for the one whose
memoized wrapper is reference-equal to the given public object (wrapper
identity tokens model reference equality). -/
def findExtHostTabFromApi (s : ExtHostEditorTabs) (apiTab : Nat) : Option ExtHostEditorTab :=
  s._extHostTabGroups.findSome? fun group =>
    group._tabs.find? fun tab => tab._apiObject == some apiTab

/-- `_findExtHostTabGroupFromApi`. -/
def findExtHostTabGroupFromApi (s : ExtHostEditorTabs) (apiTabGroup : Nat) :
    Option ExtHostEditorTabGroup :=
  s._extHostTabGroups.find? fun candidate => candidate._apiObject == some apiTabGroup

/-- `_closeTabs`: resolve every public tab object to its internal id,
throwing on the first that does not resolve; only when all resolve is the
single batched `$closeTab` request issued — modelled by returning its
id-list payload in the `ok` case. -/
def closeTabs (s : ExtHostEditorTabs) : List Nat → Except String (List String)
  | [] => .ok []
  | tab :: rest =>
      match s.findExtHostTabFromApi tab with
      | none => .error "Tab close: Invalid tab not found!"
      | some extHostTab =>
          match closeTabs s rest with
          | .error e => .error e
          | .ok ids => .ok (extHostTab.tabId :: ids)

/-- `_closeGroups`: the analogue of `closeTabs` for groups and the
batched `$closeGroup` request. -/
def closeGroups (s : ExtHostEditorTabs) : List Nat → Except String (List Int)
  | [] => .ok []
  | group :: rest =>
      match s.findExtHostTabGroupFromApi group with
      | none => .error "Group close: Invalid group not found!"
      | some extHostGroup =>
          match closeGroups s rest with
          | .error e => .error e
          | .ok ids => .ok (extHostGroup.groupId :: ids)

end ExtHostEditorTabs

/-- Whether an emission went out on the tabs-changed channel. -/
def FiredEvent.isTabsChanged : FiredEvent → Bool
  | .tabsChanged _ => true
  | .tabGroupsChanged _ => false

/-! Concrete records for the spec's example scenario (section 8) and for
witnesses: a snapshot of one active group `1` whose only tab `"a"` is
active, then an inactive tab `"b"` opened at index 1, then an update
marking `"a"` inactive, then a close at index 0. -/

/-- The active tab record `"a"` of the example scenario. -/
def tabDtoA : IEditorTabDto :=
  { id := "a", label := "tab a", isActive := true, isDirty := false, isPinned := false,
    isPreview := false, input := .TextInput "file-a" }

/-- The inactive tab record `"b"` of the example scenario. -/
def tabDtoB : IEditorTabDto :=
  { id := "b", label := "tab b", isActive := false, isDirty := false, isPinned := false,
    isPreview := false, input := .TextInput "file-b" }

/-- The active group record `1` of the example scenario. -/
def groupDto1 : IEditorTabGroupDto :=
  { groupId := 1, isActive := true, viewColumn := 0, tabs := [tabDtoA] }

/-- A freshly constructed store: no snapshot received yet. -/
def emptyStore : ExtHostEditorTabs :=
  { _activeGroupId := none, _extHostTabGroups := [] }

/-- Scenario after the snapshot. -/
def scenarioStep1 : ExtHostEditorTabs :=
  (emptyStore.acceptEditorTabModel [groupDto1]).1

/-- The Open operation of the scenario: inactive `"b"` at index 1. -/
def openTabB : TabOperation :=
  { groupId := 1, index := 1, tabDto := tabDtoB, kind := .TAB_OPEN }

/-- Scenario after the open. -/
def scenarioStep2 : ExtHostEditorTabs :=
  (scenarioStep1.acceptTabOperation openTabB).1

/-- The Update operation of the scenario: `"a"` marked inactive. -/
def updateTabA : TabOperation :=
  { groupId := 1, index := 0, tabDto := { tabDtoA with isActive := false }, kind := .TAB_UPDATE }

/-- Scenario after the update. -/
def scenarioStep3 : ExtHostEditorTabs :=
  (scenarioStep2.acceptTabOperation updateTabA).1

/-- The Close operation of the scenario: index 0. -/
def closeIndexZero : TabOperation :=
  { groupId := 1, index := 0, tabDto := { tabDtoA with isActive := false }, kind := .TAB_CLOSE }

/-- A group record carrying no active flag (for the failing-snapshot cases). -/
def groupDto2Inactive : IEditorTabGroupDto :=
  { groupId := 2, isActive := false, viewColumn := 1, tabs := [tabDtoB] }

/-- The projection returned by the scenario's Update operation: tab `"a"`
re-backed by its inactive record. -/
def exUpdatedTab : ExtHostEditorTab :=
  ExtHostEditorTab.make { tabDtoA with isActive := false }

/-- The scenario group after applying the Update marking `"a"` inactive
directly at the group level. -/
def exUpdatedGroup : ExtHostEditorTabGroup :=
  ((ExtHostEditorTabGroup.make groupDto1).acceptTabOperation updateTabA).1

/-- The scenario group after the Open of `"b"`. -/
def exOpenedGroup : ExtHostEditorTabGroup :=
  ((ExtHostEditorTabGroup.make groupDto1).acceptTabOperation openTabB).1

/-- `exOpenedGroup` after the Update marking `"a"` inactive. -/
def exOpenedThenUpdatedGroup : ExtHostEditorTabGroup :=
  (exOpenedGroup.acceptTabOperation updateTabA).1

/-!  Theorems  -/

/-- C9: the mapping from a tab record's input descriptor to the tab's
public kind is total: each of the seven recognized input-kind tags yields
the corresponding kind constructor applied to that variant's fields, and
any unrecognized tag yields `none` (`undefined`) rather than raising an
error — totality with no failure case is enforced by `initInput`'s type. -/
theorem C9_initInput_total_mapping :
    (∀ uri, initInput (.TextInput uri) = some (.TextTabInput uri)) ∧
    (∀ original modified,
      initInput (.TextDiffInput original modified) = some (.TextDiffTabInput original modified)) ∧
    (∀ uri viewType,
      initInput (.CustomEditorInput uri viewType) = some (.CustomEditorTabInput uri viewType)) ∧
    (∀ viewType,
      initInput (.WebviewEditorInput viewType) = some (.WebviewEditorTabInput viewType)) ∧
    (∀ uri notebookType,
      initInput (.NotebookInput uri notebookType) = some (.NotebookEditorTabInput uri notebookType)) ∧
    (∀ original modified notebookType,
      initInput (.NotebookDiffInput original modified notebookType)
        = some (.NotebookDiffEditorTabInput original modified notebookType)) ∧
    (initInput .TerminalEditorInput = some .TerminalEditorTabInput) ∧
    (∀ tag, initInput (.UnknownInput tag) = none) :=
  ⟨fun _ => rfl, fun _ _ => rfl, fun _ _ => rfl, fun _ => rfl, fun _ _ => rfl,
   fun _ _ _ => rfl, rfl, fun _ => rfl⟩

/-- C8: the public wrapper is constructed at most once — a second
`apiObject` access returns the same identity token, the same state and
consumes no fresh token; `acceptDtoUpdate` never touches the memoized
wrapper, so the reference handed out earlier stays valid; and every
getter of the (frozen, hence caller-unassignable) wrapper reads through
to the current backing record, so the same reference reflects each later
update. -/
theorem C8_apiObject_identity_and_live_getters
    (t : ExtHostEditorTab) (fresh : Nat) (dto : IEditorTabDto) :
    ((t.apiObject fresh).1.apiObject (t.apiObject fresh).2.2
        = ((t.apiObject fresh).1, (t.apiObject fresh).2.1, (t.apiObject fresh).2.2)) ∧
    ((t.acceptDtoUpdate dto)._apiObject = t._apiObject) ∧
    ((t.acceptDtoUpdate dto).label = dto.label) ∧
    ((t.acceptDtoUpdate dto).isDirty = dto.isDirty) ∧
    ((t.acceptDtoUpdate dto).isPinned = dto.isPinned) ∧
    ((t.acceptDtoUpdate dto).isPreview = dto.isPreview) ∧
    (∀ activeId, (t.acceptDtoUpdate dto).isActive activeId = (dto.id == activeId)) ∧
    ((t.acceptDtoUpdate dto).kind = initInput dto.input) := by
  refine ⟨?_, rfl, rfl, rfl, rfl, rfl, fun _ => rfl, rfl⟩
  cases h : t._apiObject <;> simp [ExtHostEditorTab.apiObject, h]

/-- C7: a Close operation whose index designates no existing tab in the
group's tab list returns a raised error and leaves the group — tab list
and active-tab-id included — entirely unchanged. -/
theorem C7_close_invalid_index_fails_unchanged
    (g : ExtHostEditorTabGroup) (op : TabOperation)
    (hk : op.kind = .TAB_CLOSE) (hidx : g._tabs[op.index]? = none) :
    g.acceptTabOperation op
      = (g, .error "Tab close updated received for an index which does not exist") := by
  have hko : ¬ op.kind = .TAB_OPEN := by rw [hk]; intro h; cases h
  simp [ExtHostEditorTabGroup.acceptTabOperation, hko, hk,
    ExtHostEditorTabGroup.spliceRemove, hidx]

/-- C7 witness: closing index 5 of the one-tab scenario group fails and
leaves the group unchanged. -/
theorem C7_close_invalid_index_fails_unchanged_witness :
    (ExtHostEditorTabGroup.make groupDto1).acceptTabOperation
        { groupId := 1, index := 5, tabDto := tabDtoA, kind := .TAB_CLOSE }
      = (ExtHostEditorTabGroup.make groupDto1,
         .error "Tab close updated received for an index which does not exist") :=
  C7_close_invalid_index_fails_unchanged (ExtHostEditorTabGroup.make groupDto1)
    { groupId := 1, index := 5, tabDto := tabDtoA, kind := .TAB_CLOSE } rfl (by decide)

/-- C5: the full-snapshot reset raises an error when no incoming group
record is flagged active, and when some record is flagged active (the
first such, located by `find?`) it sets the store's active-group-id to
that record's groupId and succeeds. -/
theorem C5_snapshot_active_group_id
    (s : ExtHostEditorTabs) (tabGroups : List IEditorTabGroupDto) :
    ((∀ g ∈ tabGroups, g.isActive = false) →
      ∃ e, (s.acceptEditorTabModel tabGroups).2.2 = .error e) ∧
    (∀ g, tabGroups.find? (fun r => r.isActive) = some g →
      (s.acceptEditorTabModel tabGroups).1._activeGroupId = some g.groupId ∧
      (s.acceptEditorTabModel tabGroups).2.2 = .ok ()) := by
  constructor
  · intro h
    have hfind : tabGroups.find? (fun r => r.isActive) = none := by
      rw [List.find?_eq_none]
      intro x hx
      simp [h x hx]
    refine ⟨"Assertion Failed: argument is undefined or null", ?_⟩
    simp [ExtHostEditorTabs.acceptEditorTabModel, hfind]
  · intro g hg
    refine ⟨?_, by simp [ExtHostEditorTabs.acceptEditorTabModel, hg]⟩
    by_cases hc : s._activeGroupId = some g.groupId
    · simp [ExtHostEditorTabs.acceptEditorTabModel, hg, hc]
    · simp [ExtHostEditorTabs.acceptEditorTabModel, hg, hc]

/-- C5 witness: the snapshot `[groupDto2Inactive]` (nothing active) raises
an error, and the snapshot `[groupDto1]` (group 1 active) sets the
active-group-id to 1. -/
theorem C5_snapshot_active_group_id_witness :
    (∃ e, (emptyStore.acceptEditorTabModel [groupDto2Inactive]).2.2 = Except.error e) ∧
    (emptyStore.acceptEditorTabModel [groupDto1]).1._activeGroupId = some 1 := by
  constructor
  · exact (C5_snapshot_active_group_id emptyStore [groupDto2Inactive]).1 (by decide)
  · exact ((C5_snapshot_active_group_id emptyStore [groupDto1]).2 groupDto1 (by decide)).1

/-- C10: when a snapshot carries no active-flagged group, the error is
raised only after the group-mirror list has been replaced with mirrors
built from the new snapshot; on that error path the old group mirrors are
discarded, the active-group-id keeps its old value, and no event fires —
the failure is not atomic with respect to the group list. -/
theorem C10_snapshot_failure_not_atomic
    (s : ExtHostEditorTabs) (tabGroups : List IEditorTabGroupDto)
    (h : ∀ g ∈ tabGroups, g.isActive = false) :
    (s.acceptEditorTabModel tabGroups).1._extHostTabGroups
        = tabGroups.map ExtHostEditorTabGroup.make ∧
    (s.acceptEditorTabModel tabGroups).1._activeGroupId = s._activeGroupId ∧
    (s.acceptEditorTabModel tabGroups).2.1 = [] ∧
    (∃ e, (s.acceptEditorTabModel tabGroups).2.2 = .error e) := by
  have hfind : tabGroups.find? (fun r => r.isActive) = none := by
    rw [List.find?_eq_none]
    intro x hx
    simp [h x hx]
  refine ⟨?_, ?_, ?_, "Assertion Failed: argument is undefined or null", ?_⟩ <;>
    simp [ExtHostEditorTabs.acceptEditorTabModel, hfind]

/-- C10 witness: a store whose active-group-id is 1 and whose list holds
the scenario group, hit by the inactive snapshot `[groupDto2Inactive]`:
the list is replaced by the new mirror, the active-group-id stays 1, no
event fires, and the call raises. -/
theorem C10_snapshot_failure_not_atomic_witness :
    (scenarioStep1.acceptEditorTabModel [groupDto2Inactive]).1._extHostTabGroups
        = [ExtHostEditorTabGroup.make groupDto2Inactive] ∧
    (scenarioStep1.acceptEditorTabModel [groupDto2Inactive]).1._activeGroupId = some 1 ∧
    (scenarioStep1.acceptEditorTabModel [groupDto2Inactive]).2.1 = [] ∧
    (∃ e, (scenarioStep1.acceptEditorTabModel [groupDto2Inactive]).2.2 = Except.error e) := by
  have h := C10_snapshot_failure_not_atomic scenarioStep1 [groupDto2Inactive] (by decide)
  refine ⟨h.1, ?_, h.2.2.1, h.2.2.2⟩
  rw [h.2.1]
  decide

/-- Helper for C6: an unresolvable public tab object anywhere in the
argument list makes `closeTabs` raise. -/
theorem closeTabs_error_of_unresolved (s : ExtHostEditorTabs) :
    ∀ tabs : List Nat, (∃ t ∈ tabs, s.findExtHostTabFromApi t = none) →
      ∃ e, s.closeTabs tabs = .error e := by
  intro tabs
  induction tabs with
  | nil => rintro ⟨t, ht, -⟩; cases ht
  | cons x xs ih =>
    rintro ⟨t, ht, hnone⟩
    cases hx : s.findExtHostTabFromApi x with
    | none => exact ⟨"Tab close: Invalid tab not found!", by simp [ExtHostEditorTabs.closeTabs, hx]⟩
    | some v =>
      rcases List.mem_cons.mp ht with rfl | hmem
      · rw [hx] at hnone; cases hnone
      · obtain ⟨e, he⟩ := ih ⟨t, hmem, hnone⟩
        exact ⟨e, by simp [ExtHostEditorTabs.closeTabs, hx, he]⟩

/-- Helper for C6: the analogue for groups and `closeGroups`. -/
theorem closeGroups_error_of_unresolved (s : ExtHostEditorTabs) :
    ∀ groups : List Nat, (∃ g ∈ groups, s.findExtHostTabGroupFromApi g = none) →
      ∃ e, s.closeGroups groups = .error e := by
  intro groups
  induction groups with
  | nil => rintro ⟨g, hg, -⟩; cases hg
  | cons x xs ih =>
    rintro ⟨g, hg, hnone⟩
    cases hx : s.findExtHostTabGroupFromApi x with
    | none => exact ⟨"Group close: Invalid group not found!", by simp [ExtHostEditorTabs.closeGroups, hx]⟩
    | some v =>
      rcases List.mem_cons.mp hg with rfl | hmem
      · rw [hx] at hnone; cases hnone
      · obtain ⟨e, he⟩ := ih ⟨g, hmem, hnone⟩
        exact ⟨e, by simp [ExtHostEditorTabs.closeGroups, hx, he]⟩

/-- C6: when any public tab object in the list fails to resolve to an
internal projection, `closeTabs` raises an error and therefore issues no
`$closeTab` request (in this model a request is issued exactly when the
call returns `ok` with the request's id-list payload), and the analogue
holds for `closeGroups` and `$closeGroup`. -/
theorem C6_close_fails_before_any_request
    (s : ExtHostEditorTabs) (tabs groups : List Nat) :
    ((∃ t ∈ tabs, s.findExtHostTabFromApi t = none) →
      ∃ e, s.closeTabs tabs = .error e) ∧
    ((∃ g ∈ groups, s.findExtHostTabGroupFromApi g = none) →
      ∃ e, s.closeGroups groups = .error e) :=
  ⟨closeTabs_error_of_unresolved s tabs, closeGroups_error_of_unresolved s groups⟩

/-- C6 witness: in the empty store no wrapper token resolves, so closing
the foreign tab object `0` (or group object `0`) raises. -/
theorem C6_close_fails_before_any_request_witness :
    (∃ e, emptyStore.closeTabs [0] = Except.error e) ∧
    (∃ e, emptyStore.closeGroups [0] = Except.error e) :=
  ⟨(C6_close_fails_before_any_request emptyStore [0] [0]).1 ⟨0, by decide, by decide⟩,
   (C6_close_fails_before_any_request emptyStore [0] [0]).2 ⟨0, by decide, by decide⟩⟩

/-- Helper for C2: in a list whose keys are pairwise distinct, at most
one element's key equals any given value. -/
theorem length_filter_key_eq_le_one {α κ : Type} [BEq κ] [LawfulBEq κ] (key : α → κ) (c : κ) :
    ∀ l : List α, l.Pairwise (fun a b => key a ≠ key b) →
      (l.filter fun a => key a == c).length ≤ 1 := by
  intro l hl
  induction l with
  | nil => simp
  | cons x xs ih =>
    rw [List.pairwise_cons] at hl
    cases hx : key x == c with
    | false =>
      simp only [List.filter_cons, hx, cond_false, if_neg, Bool.false_eq_true,
        not_false_iff]
      exact ih hl.2
    | true =>
      have hxc : key x = c := by simpa using hx
      have hnil : xs.filter (fun a => key a == c) = [] := by
        rw [List.filter_eq_nil_iff]
        intro a ha
        have hne := hl.1 a ha
        simp only [beq_iff_eq]
        intro hc
        exact hne (hxc.trans hc.symm)
      simp [List.filter_cons, hx, hnil]

/-- C2: in every store state whose tab ids are unique within each group
and whose group ids are unique store-wide — which covers every state
reachable by accepted operations under the claim's uniqueness assumption
— at most one tab per group reports `isActive` and at most one group
reports `isActive`, because each `isActive` getter compares the entity's
id against the single group-scoped active-tab-id (respectively the
store-scoped active-group-id). -/
theorem C2_at_most_one_active (s : ExtHostEditorTabs)
    (hgroups : s._extHostTabGroups.Pairwise (fun a b => a._dto.groupId ≠ b._dto.groupId))
    (htabs : ∀ g ∈ s._extHostTabGroups,
      g._tabs.Pairwise (fun a b => a._dto.id ≠ b._dto.id)) :
    (∀ g ∈ s._extHostTabGroups,
      (g._tabs.filter fun t => t.isActive g.activeTabId).length ≤ 1) ∧
    (s._extHostTabGroups.filter fun g => g.isActive s._activeGroupId).length ≤ 1 := by
  constructor
  · intro g hg
    exact length_filter_key_eq_le_one (fun t : ExtHostEditorTab => t._dto.id)
      g.activeTabId g._tabs (htabs g hg)
  · have hp : s._extHostTabGroups.Pairwise
        (fun a b => (some a._dto.groupId : Option Int) ≠ some b._dto.groupId) := by
      refine hgroups.imp ?_
      intro a b hab
      simpa using hab
    have := length_filter_key_eq_le_one
      (fun g : ExtHostEditorTabGroup => (some g._dto.groupId : Option Int))
      s._activeGroupId s._extHostTabGroups hp
    simpa [ExtHostEditorTabGroup.isActive] using this

/-- C2 witness: the scenario state after the open (group 1 active, tabs
`"a"` active and `"b"` inactive) has at most one active tab in its group
and at most one active group. -/
theorem C2_at_most_one_active_witness :
    (∀ g ∈ scenarioStep2._extHostTabGroups,
      (g._tabs.filter fun t => t.isActive g.activeTabId).length ≤ 1) ∧
    (scenarioStep2._extHostTabGroups.filter
      fun g => g.isActive scenarioStep2._activeGroupId).length ≤ 1 :=
  C2_at_most_one_active scenarioStep2 (by decide) (by decide)

/-- C4 counterexample: in the spec's example scenario the Close at index
0 fires the tabs-changed event zero times, not exactly once — closes are
suppressed from that channel. -/
theorem C4_counterexample_close_fires_nothing :
    ¬ ((scenarioStep3.acceptTabOperation closeIndexZero).2.1.countP
        FiredEvent.isTabsChanged = 1) := by
  decide

/-- C4 (amended): in the spec's example scenario, the Close at index 0
leaves the group with the single tab `"b"`, fires no tabs-changed event
(closes are suppressed from the tabs-changed channel), and fires no
groups-changed event. -/
theorem C4_close_scenario :
    ((scenarioStep3.acceptTabOperation closeIndexZero).1._extHostTabGroups.map
        fun g => g._tabs.map ExtHostEditorTab.tabId) = [["b"]] ∧
    (scenarioStep3.acceptTabOperation closeIndexZero).2.1 = [] ∧
    (scenarioStep3.acceptTabOperation closeIndexZero).2.2 = Except.ok () :=
  ⟨by decide, by decide, rfl⟩


/-- Helper for C1: `updateFirst` moves `find?` along, provided the
replacement still satisfies the predicate. -/
theorem find_updateFirst (p : α → Bool) (f : α → α) :
    ∀ l : List α, ∀ x, l.find? p = some x → p (f x) = true →
      (ExtHostEditorTabGroup.updateFirst p f l).find? p = some (f x) := by
  intro l
  induction l with
  | nil => intro x hx _; cases hx
  | cons y ys ih =>
    intro x hx hpf
    cases hy : p y with
    | true =>
      rw [List.find?_cons_of_pos _ hy, Option.some.injEq] at hx
      subst hx
      rw [ExtHostEditorTabGroup.updateFirst, if_pos hy]
      exact List.find?_cons_of_pos _ hpf
    | false =>
      rw [List.find?_cons_of_neg _ (by simp [hy])] at hx
      rw [ExtHostEditorTabGroup.updateFirst, if_neg (by simp [hy])]
      rw [List.find?_cons_of_neg _ (by simp [hy])]
      exact ih x hx hpf

/-- Helper for C1: the explicit shape of the Update branch of
`acceptTabOperation` when the target tab is found. -/
theorem acceptTabOperation_update_eq (g : ExtHostEditorTabGroup) (op : TabOperation)
    (hk : op.kind = .TAB_UPDATE) (t0 : ExtHostEditorTab)
    (hfind : g._tabs.find? (fun t => t.tabId == op.tabDto.id) = some t0) :
    g.acceptTabOperation op =
      ({ g with
          _tabs := ExtHostEditorTabGroup.updateFirst (fun t => t.tabId == op.tabDto.id)
                     (fun t => t.acceptDtoUpdate op.tabDto) g._tabs
          _activeTabId :=
            if op.tabDto.isActive then op.tabDto.id
            else if g._activeTabId == op.tabDto.id then "" else g._activeTabId },
       .ok (t0.acceptDtoUpdate op.tabDto)) := by
  have hko : ¬ op.kind = .TAB_OPEN := by rw [hk]; intro h; cases h
  have hkc : ¬ op.kind = .TAB_CLOSE := by rw [hk]; intro h; cases h
  simp only [ExtHostEditorTabGroup.acceptTabOperation, if_neg hko, if_neg hkc, hfind]
  cases hA : op.tabDto.isActive <;>
    cases hEq : g._activeTabId == op.tabDto.id <;>
      simp [hA, hEq]

/-- C1: for an Update applied by the group mirror to an existing tab —
the operation was accepted, returning a projection — an active incoming
record sets the group's active-tab-id to the record's id; an inactive
record whose id equals the current active-tab-id clears it to the empty
string; and replaying the same inactive Update leaves the active state
exactly as after the first application. -/
theorem C1_update_activation_rule
    (g g' : ExtHostEditorTabGroup) (op : TabOperation) (tab : ExtHostEditorTab)
    (hk : op.kind = .TAB_UPDATE)
    (hacc : g.acceptTabOperation op = (g', .ok tab)) :
    (op.tabDto.isActive = true → g'._activeTabId = op.tabDto.id) ∧
    (op.tabDto.isActive = false → g._activeTabId = op.tabDto.id →
      g'._activeTabId = "") ∧
    (op.tabDto.isActive = false →
      ((g'.acceptTabOperation op).1)._activeTabId = g'._activeTabId) := by
  have hko : ¬ op.kind = .TAB_OPEN := by rw [hk]; intro h; cases h
  have hkc : ¬ op.kind = .TAB_CLOSE := by rw [hk]; intro h; cases h
  cases hfind : g._tabs.find? (fun t => t.tabId == op.tabDto.id) with
  | none =>
    rw [ExtHostEditorTabGroup.acceptTabOperation, if_neg hko, if_neg hkc, hfind] at hacc
    simp at hacc
  | some t0 =>
    rw [acceptTabOperation_update_eq g op hk t0 hfind, Prod.mk.injEq] at hacc
    obtain ⟨hg', -⟩ := hacc
    refine ⟨?_, ?_, ?_⟩
    · intro hA
      rw [← hg']
      simp [hA]
    · intro hA hEq
      rw [← hg']
      simp [hA, hEq]
    · intro hA
      have hfind2 : g'._tabs.find? (fun t => t.tabId == op.tabDto.id)
          = some (t0.acceptDtoUpdate op.tabDto) := by
        rw [← hg']
        exact find_updateFirst _ _ g._tabs t0 hfind
          (by simp [ExtHostEditorTab.acceptDtoUpdate, ExtHostEditorTab.tabId])
      rw [acceptTabOperation_update_eq g' op hk _ hfind2]
      rw [← hg']
      cases hEq : g._activeTabId == op.tabDto.id <;> simp [hA, hEq]

/-- C1 witness: updating the scenario group's active tab `"a"` with its
inactive record clears the active-tab-id, and replaying the same update
leaves the active state unchanged. -/
theorem C1_update_activation_rule_witness :
    exUpdatedGroup._activeTabId = "" ∧
    ((exUpdatedGroup.acceptTabOperation updateTabA).1)._activeTabId
      = exUpdatedGroup._activeTabId := by
  have h := C1_update_activation_rule (ExtHostEditorTabGroup.make groupDto1)
    exUpdatedGroup updateTabA exUpdatedTab rfl rfl
  exact ⟨h.2.1 rfl (by decide), h.2.2 rfl⟩

/-- C3: for an accepted tab operation — the group is found and the
group-level application returns a projection — the store fires no
tabs-changed event when the operation is a Close, and fires exactly one
tabs-changed event carrying the returned projection otherwise; the call
itself succeeds. -/
theorem C3_tabs_changed_emission (s : ExtHostEditorTabs) (op : TabOperation)
    (g g' : ExtHostEditorTabGroup) (tab : ExtHostEditorTab)
    (hg : s._extHostTabGroups.find? (fun c => c.groupId == op.groupId) = some g)
    (hacc : g.acceptTabOperation op = (g', .ok tab)) :
    (s.acceptTabOperation op).2.1
        = (if op.kind = .TAB_CLOSE then [] else [.tabsChanged [tab]]) ∧
    (s.acceptTabOperation op).2.2 = .ok () := by
  by_cases hk : op.kind = .TAB_CLOSE <;>
    simp [ExtHostEditorTabs.acceptTabOperation, hg, hacc, hk]

/-- C3 witness: in the scenario state after the open, the Update marking
`"a"` inactive fires exactly one tabs-changed event carrying the updated
`"a"` projection and succeeds. -/
theorem C3_tabs_changed_emission_witness :
    (scenarioStep2.acceptTabOperation updateTabA).2.1
        = [FiredEvent.tabsChanged [exUpdatedTab]] ∧
    (scenarioStep2.acceptTabOperation updateTabA).2.2 = Except.ok () := by
  have h := C3_tabs_changed_emission scenarioStep2 updateTabA exOpenedGroup
    exOpenedThenUpdatedGroup exUpdatedTab (by decide) rfl
  refine ⟨?_, h.2⟩
  rw [h.1]
  decide

end VscodeTabs
